import Mathlib

/-!
Shallow embedding of the discord-mcp bridge server (src/index.ts) and
verification of the frozen claims about it.

The embedding models the four request handlers registered by
`DiscordMCPServer.setupHandlers`: the read-resource handler and the
call-tool handler with its three tool cases (`send_message`,
`read_messages`, `list_channels`).  Platform effects (channel fetch,
message fetch, guild fetch, send) are modelled by an explicit
environment `Env` of pure functions, and each handler returns both its
`Except` result and a trace (`List Step`) of the platform calls and
payload constructions it performed, in program order.

JavaScript truthiness tests that appear in the source (`if (content)`,
`if (embedData.color)`, `.filter(Boolean)` over numeric enum values,
`channel.parentId !== categoryId` against a possibly-null parent) are
translated explicitly: a string is truthy iff it is present and
non-empty, a number is truthy iff it is non-zero, and an object is
truthy iff it is present.
-/

namespace DiscordMCP

/-- Error classifications of the protocol SDK used by the source
(`ErrorCode.InvalidRequest`, `ErrorCode.InternalError`,
`ErrorCode.MethodNotFound`). -/
inductive ErrCode where
  | invalidRequest
  | internalError
  | methodNotFound
deriving DecidableEq, Repr

/-- Protocol error carrying a classification and a message, modelling
`McpError`. -/
structure McpErr where
  code : ErrCode
  message : String
deriving DecidableEq, Repr

/-- Numeric code used when a caught `McpError` is stringified by the JS
template literal in the catch blocks. -/
def ErrCode.numStr : ErrCode → String
  | .invalidRequest => "-32600"
  | .internalError => "-32603"
  | .methodNotFound => "-32601"

/-- Stringification of an `McpError` by a JS template literal, as in
`Failed to send message: ${error}`. -/
def McpErr.toStr (e : McpErr) : String :=
  "McpError: MCP error " ++ e.code.numStr ++ ": " ++ e.message

/-- JS truthiness of an optional string argument: defined and non-empty. -/
def strTruthy : Option String → Bool
  | none => false
  | some s => s ≠ ""

/-- JS truthiness of an optional number argument: defined and non-zero. -/
def intTruthy : Option Int → Bool
  | none => false
  | some n => n ≠ 0

/-! ### Embed construction (send_message, index.ts lines 413-451) -/

/-- Embed field entry (`{ name, value, inline? }`). -/
structure EmbedField where
  name : String
  value : String
  inl : Option Bool
deriving DecidableEq, Repr

/-- Author object of an embed input (`{ name?, url?, iconURL? }`). -/
structure AuthorInput where
  name : Option String
  url : Option String
  iconURL : Option String
deriving DecidableEq, Repr

/-- Footer object of an embed input (`{ text?, iconURL? }`). -/
structure FooterInput where
  text : Option String
  iconURL : Option String
deriving DecidableEq, Repr

/-- One element of the `embeds` argument of `send_message`. -/
structure EmbedInput where
  title : Option String
  descr : Option String
  url : Option String
  color : Option Int
  fields : Option (List EmbedField)
  author : Option AuthorInput
  thumbnail : Option String
  image : Option String
  footer : Option FooterInput
  timestamp : Option String
deriving DecidableEq, Repr

/-- Author data stored in a built embed: `setAuthor` receives
`name: embedData.author.name || ""` so the name is always a plain
string, defaulting to the empty string. -/
structure AuthorOut where
  name : String
  url : Option String
  iconURL : Option String
deriving DecidableEq, Repr

/-- Footer data stored in a built embed (`text: footer.text || ""`). -/
structure FooterOut where
  text : String
  iconURL : Option String
deriving DecidableEq, Repr

/-- The outgoing embed produced by the `EmbedBuilder` setter sequence:
a field is `none` exactly when the corresponding setter was not called. -/
structure Embed where
  title : Option String
  descr : Option String
  url : Option String
  color : Option Int
  timestamp : Option String
  author : Option AuthorOut
  thumbnail : Option String
  image : Option String
  footer : Option FooterOut
  fields : Option (List EmbedField)
deriving DecidableEq, Repr

/-- The embed with no setter applied (`new EmbedBuilder()`). -/
def Embed.empty : Embed :=
  ⟨none, none, none, none, none, none, none, none, none, none⟩

/-- Setter step for `if (embedData.title) embed.setTitle(...)`
(index.ts 417). -/
def setTitle (d : EmbedInput) (e : Embed) : Embed :=
  if strTruthy d.title then { e with title := d.title } else e

/-- Setter step for `if (embedData.description) embed.setDescription(...)`
(index.ts 418). -/
def setDescr (d : EmbedInput) (e : Embed) : Embed :=
  if strTruthy d.descr then { e with descr := d.descr } else e

/-- Setter step for `if (embedData.url) embed.setURL(...)`
(index.ts 419). -/
def setUrl (d : EmbedInput) (e : Embed) : Embed :=
  if strTruthy d.url then { e with url := d.url } else e

/-- Setter step for `if (embedData.color) embed.setColor(...)`
(index.ts 420); the guard is a JS truthiness test, so a `0` color is
not set. -/
def setColor (d : EmbedInput) (e : Embed) : Embed :=
  if intTruthy d.color then { e with color := d.color } else e

/-- Setter step for `if (embedData.timestamp) embed.setTimestamp(...)`
(index.ts 421). -/
def setTimestamp (d : EmbedInput) (e : Embed) : Embed :=
  if strTruthy d.timestamp then { e with timestamp := d.timestamp } else e

/-- Setter step for the author block (index.ts 423-429):
`name: embedData.author.name || ""`. -/
def setAuthor (d : EmbedInput) (e : Embed) : Embed :=
  match d.author with
  | some a => { e with author := some ⟨a.name.getD "", a.url, a.iconURL⟩ }
  | none => e

/-- Setter step for the thumbnail block (index.ts 431-433). -/
def setThumbnail (d : EmbedInput) (e : Embed) : Embed :=
  match d.thumbnail with
  | some u => { e with thumbnail := some u }
  | none => e

/-- Setter step for the image block (index.ts 435-437). -/
def setImage (d : EmbedInput) (e : Embed) : Embed :=
  match d.image with
  | some u => { e with image := some u }
  | none => e

/-- Setter step for the footer block (index.ts 439-444):
`text: embedData.footer.text || ""`. -/
def setFooter (d : EmbedInput) (e : Embed) : Embed :=
  match d.footer with
  | some f => { e with footer := some ⟨f.text.getD "", f.iconURL⟩ }
  | none => e

/-- Setter step for `if (embedData.fields) embed.addFields(...)`
(index.ts 446-448). -/
def setFields (d : EmbedInput) (e : Embed) : Embed :=
  match d.fields with
  | some fs => { e with fields := some fs }
  | none => e

/-- Translation of the embed construction loop body (index.ts 414-450):
`new EmbedBuilder()` followed by the conditional setter steps in source
order. -/
def buildEmbed (d : EmbedInput) : Embed :=
  setFields d (setFooter d (setImage d (setThumbnail d (setAuthor d
    (setTimestamp d (setColor d (setUrl d (setDescr d (setTitle d Embed.empty)))))))))

/-! ### Message options (send_message, index.ts lines 397-464) -/

/-- The `allowedMentions` argument, passed through unchanged. -/
structure AllowedMentions where
  parse : Option (List String)
  users : Option (List String)
  roles : Option (List String)
  repliedUser : Option Bool
deriving DecidableEq, Repr

/-- The reply reference set when `replyTo` is truthy:
`{ messageReference: replyTo, failIfNotExists: false }`. -/
structure ReplyRef where
  messageReference : String
  failIfNotExists : Bool
deriving DecidableEq, Repr

/-- The outgoing `MessageCreateOptions` record built by the handler. -/
structure MessageOptions where
  content : Option String
  tts : Bool
  allowedMentions : Option AllowedMentions
  reply : Option ReplyRef
  embeds : Option (List Embed)
  flags : Option Nat
deriving DecidableEq, Repr

/-- Arguments of a `send_message` invocation, after the destructuring
cast; optional fields are `none` when absent from the arguments bag. -/
structure SendArgs where
  channelId : String
  content : Option String
  replyTo : Option String
  tts : Option Bool
  suppressEmbeds : Option Bool
  suppressNotifications : Option Bool
  embeds : Option (List EmbedInput)
  allowedMentions : Option AllowedMentions
deriving DecidableEq, Repr

/-- Numeric value of `MessageFlags.SuppressEmbeds`. -/
def suppressEmbedsFlag : Nat := 4

/-- Numeric value of `MessageFlags.SuppressNotifications`. -/
def suppressNotificationsFlag : Nat := 4096

/-- Construction of the outgoing send payload, following index.ts
397-464 in order: base options (`content: content || undefined`, `tts`,
`allowedMentions`), then the reply reference when `replyTo` is truthy,
then the built embeds when `embeds` is present and non-empty, then the
flags bitmask when non-zero. -/
def buildMessageOptions (a : SendArgs) : MessageOptions :=
  let base : MessageOptions :=
    { content := if strTruthy a.content then a.content else none
      tts := a.tts.getD false
      allowedMentions := a.allowedMentions
      reply := none
      embeds := none
      flags := none }
  let withReply :=
    if strTruthy a.replyTo then
      { base with reply := some ⟨a.replyTo.getD "", false⟩ }
    else base
  let withEmbeds :=
    match a.embeds with
    | some es =>
        if es.length > 0 then { withReply with embeds := some (es.map buildEmbed) }
        else withReply
    | none => withReply
  let flagBits :=
    (if a.suppressEmbeds.getD false then suppressEmbedsFlag else 0) +
      (if a.suppressNotifications.getD false then suppressNotificationsFlag else 0)
  if flagBits > 0 then { withEmbeds with flags := some flagBits } else withEmbeds

/-! ### Platform environment and effect traces -/

/-- A channel as seen by `channels.fetch`: the send and read handlers
only consult `isTextBased()`. -/
structure Channel where
  id : String
  isTextBased : Bool
deriving DecidableEq, Repr

/-- A message author (`msg.author`). -/
structure Author where
  id : String
  username : String
  bot : Bool
deriving DecidableEq, Repr

/-- A message attachment. -/
structure Attachment where
  name : Option String
  url : String
  size : Nat
  contentType : Option String
deriving DecidableEq, Repr

/-- A reaction on a platform message (`msg.reactions.cache` entry). -/
structure Reaction where
  emoji : String
  count : Nat
  me : Bool
deriving DecidableEq, Repr

/-- An embed attached to a platform message, as read by the
`read_messages` projection (index.ts 561-571). -/
structure RawEmbed where
  title : Option String
  descr : Option String
  url : Option String
  color : Option Int
  fields : List EmbedField
  author : Option AuthorOut
  thumbnailUrl : Option String
  imageUrl : Option String
  footer : Option FooterOut
deriving DecidableEq, Repr

/-- A platform message returned by `messages.fetch`. -/
structure Message where
  id : String
  author : Author
  createdTimestamp : Int
  editedTimestamp : Option Int
  content : String
  attachments : List Attachment
  embeds : List RawEmbed
  reactions : List Reaction
deriving DecidableEq, Repr

/-- Fetch options built by `read_messages` (index.ts 518-521): `limit`
always, each anchor only when truthy. -/
structure FetchOptions where
  limit : Nat
  before : Option String
  after : Option String
  around : Option String
deriving DecidableEq, Repr

/-- One observable step of a handler run: the platform calls
(`channels.fetch`, `messages.fetch`, `guilds.fetch`, `channel.send`)
plus the construction of the outgoing send payload, which the temporal
claims reason about. -/
inductive Step where
  | fetchChannel (id : String)
  | buildPayload (opts : MessageOptions)
  | send (channelId : String) (opts : MessageOptions)
  | fetchMessages (channelId : String) (opts : FetchOptions)
  | fetchGuild (id : String)
deriving DecidableEq, Repr

/-- Whether a step is a platform send. -/
def Step.isSend : Step → Bool
  | .send _ _ => true
  | _ => false

/-- Whether a step is the construction of the send payload. -/
def Step.isBuildPayload : Step → Bool
  | .buildPayload _ => true
  | _ => false

/-! ### Channel model for list_channels -/

/-- Channel types of the discord.js `ChannelType` enum that can occur in
a guild channel cache. -/
inductive ChanType where
  | guildText
  | guildVoice
  | guildCategory
  | guildAnnouncement
  | announcementThread
  | publicThread
  | privateThread
  | guildStageVoice
  | guildForum
  | guildMedia
deriving DecidableEq, Repr

/-- Numeric values of the discord.js `ChannelType` enum members; note
`GuildText = 0`, which is falsy in JS. -/
def ChanType.toNat : ChanType → Nat
  | .guildText => 0
  | .guildVoice => 2
  | .guildCategory => 4
  | .guildAnnouncement => 5
  | .announcementThread => 10
  | .publicThread => 11
  | .privateThread => 12
  | .guildStageVoice => 13
  | .guildForum => 15
  | .guildMedia => 16

/-- The `channel.isThread()` predicate. -/
def ChanType.isThread (t : ChanType) : Bool :=
  t = .publicThread || t = .privateThread || t = .announcementThread

/-- The channel-type names accepted in the `channelTypes` argument. -/
inductive TypeName where
  | text
  | voice
  | category
  | news
  | stage
  | forum
  | media
  | thread
deriving DecidableEq, Repr

/-- The `typeMapping` table (index.ts 626-635); the generic `thread`
name is mapped to `PublicThread` (threads are special-cased later). -/
def typeMapping : TypeName → ChanType
  | .text => .guildText
  | .voice => .guildVoice
  | .category => .guildCategory
  | .news => .guildAnnouncement
  | .stage => .guildStageVoice
  | .forum => .guildForum
  | .media => .guildMedia
  | .thread => .publicThread

/-- A channel in a guild's cached channel collection, with the
properties the `list_channels` filter and sort consult.
`hasPositionProp` and `hasParentIdProp` model the JS `in` property
tests; `parentId = none` models a present-but-null `parentId`. -/
structure GuildChannel where
  id : String
  name : String
  type : ChanType
  hasPositionProp : Bool
  position : Int
  hasParentIdProp : Bool
  parentId : Option String
  archived : Bool
  createdTimestamp : Int
deriving DecidableEq, Repr

/-- A guild as returned by `guilds.fetch`, restricted to its cached
channel collection. -/
structure Guild where
  id : String
  name : String
  memberCount : Nat
  channelsCache : List GuildChannel
deriving Repr

/-- The platform world: pure functions standing for the discord.js
client operations the handlers await.  `send` and the fetches may fail
on the platform side, modelled by `Option`/`Except`. -/
structure Env where
  channels : String → Option Channel
  sendResult : String → MessageOptions → Except String String
  fetchMessages : String → FetchOptions → List Message
  guilds : String → Option Guild
  guildsCache : List Guild

/-- A normalized guild summary (read-resource projection). -/
structure GuildSummary where
  id : String
  name : String
  memberCount : Nat
deriving DecidableEq, Repr

/-- An error raised inside a handler's try block: either an `McpError`
thrown by the handler's own validation, or a platform exception
(modelled by its string form). -/
inductive TryErr where
  | mcp (e : McpErr)
  | platform (s : String)
deriving DecidableEq, Repr

/-- Stringification of a caught error by the JS template literal. -/
def TryErr.toStr : TryErr → String
  | .mcp e => e.toStr
  | .platform s => s

/-- The catch block shared shape: every error caught inside a tool case
is rewrapped as `McpError(ErrorCode.InternalError, prefix + error)`,
including the `McpError`s the case itself threw. -/
def wrapCatch (pre : String) {α : Type} :
    Except TryErr α × List Step → Except McpErr α × List Step
  | (.ok v, log) => (.ok v, log)
  | (.error e, log) => (.error ⟨.internalError, pre ++ e.toStr⟩, log)

/-! ### send_message handler (index.ts 354-484) -/

/-- The invalid-channel error thrown at index.ts 394. -/
def invalidChannelErr : McpErr :=
  ⟨.invalidRequest, "Invalid channel ID or channel is not text-based"⟩

/-- The missing-content error thrown at index.ts 468. -/
def noContentErr : McpErr :=
  ⟨.invalidRequest, "Either content or embeds must be provided"⟩

/-- Body of the `send_message` try block, in source order: fetch the
channel; reject a missing or non-text channel; build the full send
payload (index.ts 397-464); only then run the content-or-embeds
validation (466-469); finally dispatch the send (471). -/
def sendMessageTry (env : Env) (a : SendArgs) :
    Except TryErr String × List Step :=
  match env.channels a.channelId with
  | none => (.error (.mcp invalidChannelErr), [.fetchChannel a.channelId])
  | some ch =>
    if ch.isTextBased = false then
      (.error (.mcp invalidChannelErr), [.fetchChannel a.channelId])
    else
      let opts := buildMessageOptions a
      let log := [.fetchChannel a.channelId, .buildPayload opts]
      if strTruthy a.content = false ∧
          (a.embeds.isNone ∨ (a.embeds.getD []).length = 0) then
        (.error (.mcp noContentErr), log)
      else
        match env.sendResult a.channelId opts with
        | .ok mid =>
            (.ok ("Message sent successfully. ID: " ++ mid),
              log ++ [.send a.channelId opts])
        | .error e =>
            (.error (.platform e), log ++ [.send a.channelId opts])

/-- The `send_message` case with its catch block: any error raised in
the try body -- the handler's own `McpError`s included -- is rewrapped
as an internal error. -/
def sendMessage (env : Env) (a : SendArgs) : Except McpErr String × List Step :=
  wrapCatch "Failed to send message: " (sendMessageTry env a)

/-! ### read_messages handler (index.ts 486-597) -/

/-- Requested output order of `read_messages`. -/
inductive SortOrder where
  | asc
  | desc
deriving DecidableEq, Repr

/-- Arguments of a `read_messages` invocation, optional fields `none`
when absent; destructuring defaults (`limit = 10`,
`includeContent = true`, `includeEmbeds = false`,
`includeReactions = false`, `sortOrder = "desc"`) are applied at use
sites via `Option.getD`. -/
structure ReadArgs where
  channelId : String
  limit : Option Nat
  before : Option String
  after : Option String
  around : Option String
  authorId : Option String
  includeContent : Option Bool
  includeEmbeds : Option Bool
  includeReactions : Option Bool
  sortOrder : Option SortOrder
deriving DecidableEq, Repr

/-- The fetch options record built at index.ts 518-521: `limit` always,
each anchor only when its argument is truthy. -/
def buildFetchOptions (a : ReadArgs) : FetchOptions :=
  { limit := a.limit.getD 10
    before := if strTruthy a.before then a.before else none
    after := if strTruthy a.after then a.after else none
    around := if strTruthy a.around then a.around else none }

/-- The normalized message projection returned by `read_messages`
(index.ts 536-584): base fields always, `content` only when
`includeContent`, `embeds` only when `includeEmbeds` and the message has
at least one, `reactions` likewise.  In the model the raw embed already
carries `thumbnail?.url` and `image?.url` as extracted strings, so the
embed projection is the identity on `RawEmbed`. -/
structure MessageData where
  id : String
  author : Author
  timestamp : Int
  editedTimestamp : Option Int
  attachments : List Attachment
  content : Option String
  embeds : Option (List RawEmbed)
  reactions : Option (List Reaction)
deriving DecidableEq, Repr

/-- Projection of a single fetched message (index.ts 537-583). -/
def projectMessage (ic ie ir : Bool) (m : Message) : MessageData :=
  { id := m.id
    author := m.author
    timestamp := m.createdTimestamp
    editedTimestamp := m.editedTimestamp
    attachments := m.attachments
    content := if ic then some m.content else none
    embeds := if ie && m.embeds.length > 0 then some m.embeds else none
    reactions := if ir && m.reactions.length > 0 then some m.reactions else none }

/-- Body of the `read_messages` try block, in source order: fetch and
validate the channel; build the fetch options; fetch messages; filter by
author when `authorId` is truthy (index.ts 526-528); reverse when
`sortOrder` is `"asc"` (532-534); project (536-584). -/
def readMessagesTry (env : Env) (a : ReadArgs) :
    Except TryErr (List MessageData) × List Step :=
  match env.channels a.channelId with
  | none => (.error (.mcp invalidChannelErr), [.fetchChannel a.channelId])
  | some ch =>
    if ch.isTextBased = false then
      (.error (.mcp invalidChannelErr), [.fetchChannel a.channelId])
    else
      let fo := buildFetchOptions a
      let fetched := env.fetchMessages a.channelId fo
      let log := [.fetchChannel a.channelId, .fetchMessages a.channelId fo]
      let filtered :=
        if strTruthy a.authorId then
          fetched.filter (fun m => m.author.id == a.authorId.getD "")
        else fetched
      let ordered :=
        if a.sortOrder.getD .desc = .asc then filtered.reverse else filtered
      let ic := a.includeContent.getD true
      let ie := a.includeEmbeds.getD false
      let ir := a.includeReactions.getD false
      (.ok (ordered.map (projectMessage ic ie ir)), log)

/-- The `read_messages` case with its catch block. -/
def readMessages (env : Env) (a : ReadArgs) :
    Except McpErr (List MessageData) × List Step :=
  wrapCatch "Failed to read messages: " (readMessagesTry env a)

/-! ### list_channels handler (index.ts 599-782) -/

/-- Requested sort key of `list_channels`. -/
inductive SortBy where
  | name
  | position
  | created
deriving DecidableEq, Repr

/-- Arguments of a `list_channels` invocation; destructuring defaults
(`includeArchived = false`, `includePrivate = false`,
`sortBy = "position"`, `includeTopic = true`, ...) are applied at use
sites via `Option.getD`. -/
structure ListArgs where
  guildId : String
  channelTypes : Option (List TypeName)
  includeArchived : Option Bool
  includePrivate : Option Bool
  categoryId : Option String
  sortBy : Option SortBy
  includePermissions : Option Bool
  includeTopic : Option Bool
  includeStats : Option Bool
deriving DecidableEq, Repr

/-- The type filter block (index.ts 640-651).  `allowedTypes` is the
requested names mapped through `typeMapping` and then passed through
`.filter(Boolean)`, which drops falsy enum values -- in particular
`GuildText = 0`.  A channel not in `allowedTypes` survives only if the
generic `"thread"` name was requested and the channel is one of the
three thread variants. -/
def typePasses (channelTypes : Option (List TypeName)) (c : GuildChannel) : Bool :=
  match channelTypes with
  | none => true
  | some ts =>
    if ts.length > 0 then
      let allowedTypes := (ts.map typeMapping).filter (fun t => t.toNat != 0)
      if !(allowedTypes.contains c.type) then
        if !(ts.contains .thread) ||
            (c.type != .publicThread && c.type != .privateThread &&
              c.type != .announcementThread) then
          false
        else true
      else true
    else true

/-- The category filter block (index.ts 653-656): the channel is dropped
when `categoryId` is truthy, the channel has the `parentId` property,
and its `parentId` (null included) differs from `categoryId`. -/
def catPasses (categoryId : Option String) (c : GuildChannel) : Bool :=
  !(strTruthy categoryId && c.hasParentIdProp && c.parentId != categoryId)

/-- The archived-thread filter block (index.ts 658-661). -/
def archPasses (includeArchived : Bool) (c : GuildChannel) : Bool :=
  !(!includeArchived && c.type.isThread && c.archived)

/-- The private-thread filter block (index.ts 663-666). -/
def privPasses (includePrivate : Bool) (c : GuildChannel) : Bool :=
  !(!includePrivate && c.type == .privateThread)

/-- The filter callback of index.ts 638-669 as the early-return chain of
its four blocks. -/
def keepChannel (a : ListArgs) (c : GuildChannel) : Bool :=
  if typePasses a.channelTypes c = false then false
  else if catPasses a.categoryId c = false then false
  else if archPasses (a.includeArchived.getD false) c = false then false
  else if privPasses (a.includePrivate.getD false) c = false then false
  else true

/-- The filtering step of `list_channels`. -/
def filterChannels (a : ListArgs) (l : List GuildChannel) : List GuildChannel :=
  l.filter (keepChannel a)

/-- Stable insertion of an element into a sorted list, placing it before
the first element it compares `le` to; models the placement a stable
comparator sort gives one element. -/
def insertLe (le : α → α → Bool) (a : α) : List α → List α
  | [] => [a]
  | b :: l => if le a b then a :: b :: l else b :: insertLe le a l

/-- Stable sort by a boolean comparison, modelling JS
`Array.prototype.sort` with a consistent comparator (stable per the
ECMAScript specification). -/
def stableSort (le : α → α → Bool) : List α → List α
  | [] => []
  | a :: l => insertLe le a (stableSort le l)

/-- Effective position used by the position sort (index.ts 680-681):
the channel's position when it has the property, otherwise `999`. -/
def effPos (c : GuildChannel) : Int :=
  if c.hasPositionProp then c.position else 999

/-- Comparator of the name sort (index.ts 674): `localeCompare`,
modelled as case-insensitive lexicographic order. -/
def nameLe (a b : GuildChannel) : Bool :=
  a.name.toLower ≤ b.name.toLower

/-- Comparator of the created sort (index.ts 676). -/
def createdLe (a b : GuildChannel) : Bool :=
  a.createdTimestamp ≤ b.createdTimestamp

/-- Comparator of the position sort (index.ts 679-683). -/
def posLe (a b : GuildChannel) : Bool :=
  effPos a ≤ effPos b

/-- The sorting step of `list_channels` (index.ts 671-684). -/
def sortChannels (s : SortBy) (l : List GuildChannel) : List GuildChannel :=
  match s with
  | .name => stableSort nameLe l
  | .created => stableSort createdLe l
  | .position => stableSort posLe l

/-- Body of the `list_channels` try block up to channel granularity:
fetch the guild (throws a platform error when unknown, caught by the
catch block), filter its cached channels (638-669), sort the survivors
(671-684).  The per-channel data projection of index.ts 687-769 maps
each surviving channel one-to-one to its output record and changes
neither membership nor order, so the claims about the output sequence
are stated on this channel-level sequence. -/
def listChannelsTry (env : Env) (a : ListArgs) :
    Except TryErr (List GuildChannel) × List Step :=
  match env.guilds a.guildId with
  | none => (.error (.platform "DiscordAPIError: Unknown Guild"), [.fetchGuild a.guildId])
  | some g =>
      (.ok (sortChannels (a.sortBy.getD .position) (filterChannels a g.channelsCache)),
        [.fetchGuild a.guildId])

/-- The `list_channels` case with its catch block. -/
def listChannels (env : Env) (a : ListArgs) :
    Except McpErr (List GuildChannel) × List Step :=
  wrapCatch "Failed to list channels: " (listChannelsTry env a)

/-! ### Top-level handlers (readiness gate, dispatch) -/

/-- The not-ready error thrown at index.ts 93-94 and 347-348, outside
any try block. -/
def notReadyErr : McpErr := ⟨.internalError, "Discord client not ready"⟩

/-- Result contents of a successful read-resource request, with the
guild list kept structured rather than JSON-encoded. -/
structure ResourceContents where
  uri : String
  mimeType : String
  guilds : List GuildSummary
deriving DecidableEq, Repr

/-- The read-resource handler (index.ts 92-118): fail fast when the
readiness flag is false; serve the one known URI from the guild cache;
classify any other URI as an invalid request.  Neither error path is
inside a try block, so the classifications reach the caller as
written. -/
def readResource (ready : Bool) (env : Env) (uri : String) :
    Except McpErr ResourceContents × List Step :=
  if ready = false then
    (.error notReadyErr, [])
  else if uri = "discord://guilds" then
    (.ok ⟨uri, "application/json",
        env.guildsCache.map (fun g => ⟨g.id, g.name, g.memberCount⟩)⟩, [])
  else
    (.error ⟨.invalidRequest, "Unknown resource: " ++ uri⟩, [])

/-- A call-tool request: the tool name together with its arguments bag
cast to that tool's shape, as the handler's switch does. -/
inductive ToolRequest where
  | sendMessage (a : SendArgs)
  | readMessages (a : ReadArgs)
  | listChannels (a : ListArgs)
  | unknown (name : String)

/-- Result payload of a call-tool request. -/
inductive CallResult where
  | text (s : String)
  | messages (l : List MessageData)
  | channels (l : List GuildChannel)
deriving DecidableEq, Repr

/-- The call-tool handler (index.ts 346-787): fail fast with the
not-ready internal error when the readiness flag is false (before any
platform access), then dispatch on the tool name; an unknown name is a
method-not-found error. -/
def callTool (ready : Bool) (env : Env) (req : ToolRequest) :
    Except McpErr CallResult × List Step :=
  if ready = false then
    (.error notReadyErr, [])
  else
    match req with
    | .sendMessage a =>
        let (r, log) := sendMessage env a
        (r.map .text, log)
    | .readMessages a =>
        let (r, log) := readMessages env a
        (r.map .messages, log)
    | .listChannels a =>
        let (r, log) := listChannels env a
        (r.map .channels, log)
    | .unknown n =>
        (.error ⟨.methodNotFound, "Unknown tool: " ++ n⟩, [])

/-! ### Concrete fixtures used by witnesses, counterexamples and
evaluations -/

/-- A resolvable text-capable channel. -/
def chanC : Channel := ⟨"C", true⟩

/-- A resolvable channel that is not text-capable. -/
def chanV : Channel := ⟨"V", false⟩

/-- A small platform world: `"C"` resolves to a text channel, `"V"` to a
non-text channel, everything else resolves to nothing; sends succeed
with message id `"900"`. -/
def env0 : Env :=
  { channels := fun id =>
      if id = "C" then some chanC else if id = "V" then some chanV else none
    sendResult := fun _ _ => .ok "900"
    fetchMessages := fun _ _ => []
    guilds := fun _ => none
    guildsCache := [] }

/-- A `send_message` invocation carrying only `channelId`. -/
def bareSendArgs : SendArgs := ⟨"C", none, none, none, none, none, none, none⟩

/-- A `send_message` invocation with content but an unresolvable
channel id. -/
def badChanArgs : SendArgs := ⟨"missing", some "hi", none, none, none, none, none, none⟩

/-- A `send_message` invocation with content against the non-text
channel. -/
def voiceChanArgs : SendArgs := ⟨"V", some "hi", none, none, none, none, none, none⟩

/-- An embed input that supplies `color = 0`, an author without a name,
and a footer without text. -/
def cexEmbedInput : EmbedInput :=
  { title := some "t", descr := none, url := none, color := some 0, fields := none
    author := some ⟨none, some "https://a.example", none⟩, thumbnail := none
    image := none, footer := some ⟨none, none⟩, timestamp := none }

/-- An embed input with every field supplied truthy. -/
def fullEmbedInput : EmbedInput :=
  { title := some "t", descr := some "d", url := some "u", color := some 5
    fields := some [⟨"n", "v", some true⟩], author := some ⟨some "au", none, none⟩
    thumbnail := some "th", image := some "im", footer := some ⟨some "ft", none⟩
    timestamp := some "2024-01-01T00:00:00Z" }

/-- A channel with a declared position of 1000. -/
def chPos1000 : GuildChannel := ⟨"a", "alpha", .guildVoice, true, 1000, true, none, false, 0⟩

/-- A thread channel that lacks the position property. -/
def chNoPos : GuildChannel := ⟨"b", "beta", .publicThread, false, 0, true, none, false, 0⟩

/-- An empty `list_channels` argument bag (only `guildId`), leaving
every option to its destructuring default. -/
def bareListArgs : ListArgs := ⟨"G", none, none, none, none, none, none, none, none⟩

/-- A channel that has the `parentId` property with a null value (as
every cached guild channel and thread does when it has no parent). -/
def chNullParent : GuildChannel := ⟨"x", "general", .guildText, true, 0, true, none, false, 0⟩

/-- The four filter predicates of the `list_channels` filter callback,
in source order. -/
def listFilters (a : ListArgs) : List (GuildChannel → Bool) :=
  [typePasses a.channelTypes, catPasses a.categoryId,
    archPasses (a.includeArchived.getD false), privPasses (a.includePrivate.getD false)]

/-- Application of a list of filter predicates one after another. -/
def applyFilters (ps : List (α → Bool)) (l : List α) : List α :=
  ps.foldl (fun acc p => acc.filter p) l

/-- A `list_channels` invocation filtering voice channels and threads of
one category. -/
def voiceThreadArgs : ListArgs :=
  ⟨"G", some [.voice, .thread], none, none, some "cat", none, none, none, none⟩

/-- Whether a handler result is a success. -/
def isOkRes {α : Type} : Except McpErr α → Bool
  | .ok _ => true
  | .error _ => false

/-- The message list of a successful `read_messages` result. -/
def resultList : Except McpErr (List MessageData) → List MessageData
  | .ok l => l
  | .error _ => []

/-- A fetched message authored by `"U"` with timestamp 100. -/
def msgU : Message := ⟨"m1", ⟨"U", "userU", false⟩, 100, none, "hello", [], [], []⟩

/-- A fetched message authored by `"V"` with timestamp 50. -/
def msgV : Message := ⟨"m2", ⟨"V", "userV", false⟩, 50, none, "yo", [], [], []⟩

/-- A platform world whose channel `"C"` holds two messages. -/
def env3 : Env :=
  { channels := fun id => if id = "C" then some chanC else none
    sendResult := fun _ _ => .ok "900"
    fetchMessages := fun id _ => if id = "C" then [msgU, msgV] else []
    guilds := fun _ => none
    guildsCache := [] }

/-- A `read_messages` invocation with `limit = 5` and the author filter
`"U"`. -/
def readArgsU : ReadArgs :=
  ⟨"C", some 5, none, none, none, some "U", none, none, none, none⟩

/-- The content field of the built payload is the truthiness-normalized
content argument (`content: content || undefined`), untouched by the
later reply/embeds/flags construction steps. -/
theorem buildMessageOptions_content (a : SendArgs) :
    (buildMessageOptions a).content =
      (if strTruthy a.content then a.content else none) := by
  unfold buildMessageOptions
  cases a.embeds <;> dsimp only <;> split_ifs <;> rfl

/-! ### C7 -/

/-- C7: while the readiness flag is false, the read-resource handler and
the call-tool handler each return the not-ready internal-error
classification and perform zero platform calls (their traces are
empty). -/
theorem notReady_failsFast_noPlatformCalls :
    ∀ (env : Env) (uri : String) (req : ToolRequest),
      notReadyErr.code = ErrCode.internalError ∧
      readResource false env uri = (.error notReadyErr, []) ∧
      callTool false env req = (.error notReadyErr, []) :=
  fun _ _ _ => ⟨rfl, rfl, rfl⟩

/-! ### C10 -/

/-- C10: the `send_message` handler treats an empty-string `content`
exactly like an absent one: the whole run (result and trace) with
`content = ""` equals the run with `content` absent; the constructed
payload omits the content field; and with no embeds and a resolvable
text channel, the run fails with the (catch-wrapped) missing-content
error. -/
theorem sendMessage_emptyContent_likeAbsent (env : Env) (a : SendArgs) (ch : Channel) :
    sendMessage env { a with content := some "" } =
      sendMessage env { a with content := none } ∧
    (buildMessageOptions { a with content := some "" }).content = none ∧
    (env.channels a.channelId = some ch → ch.isTextBased = true → a.embeds = none →
      (sendMessage env { a with content := some "" }).1 =
        .error ⟨.internalError, "Failed to send message: " ++ noContentErr.toStr⟩) := by
  refine ⟨?_, ?_, ?_⟩
  · unfold sendMessage sendMessageTry
    cases henv : env.channels a.channelId with
    | none => rfl
    | some c =>
        cases htb : c.isTextBased <;>
          simp [buildMessageOptions, strTruthy, htb]
  · rw [buildMessageOptions_content]
    rfl
  · intro hch htext hemb
    unfold sendMessage sendMessageTry
    simp [hch, htext, hemb, strTruthy, wrapCatch, TryErr.toStr]

/-- Witness for C10 at the bare invocation against the text channel. -/
theorem sendMessage_emptyContent_likeAbsent_witness :
    sendMessage env0 { bareSendArgs with content := some "" } =
      sendMessage env0 { bareSendArgs with content := none } ∧
    (buildMessageOptions { bareSendArgs with content := some "" }).content = none ∧
    (sendMessage env0 { bareSendArgs with content := some "" }).1 =
      .error ⟨.internalError, "Failed to send message: " ++ noContentErr.toStr⟩ := by
  obtain ⟨h1, h2, h3⟩ :=
    sendMessage_emptyContent_likeAbsent env0 bareSendArgs chanC
  exact ⟨h1, h2, h3 rfl rfl rfl⟩

/-! ### C1 -/

/-- C1: evaluation at the failing input.  A `send_message` invocation
with neither `content` nor `embeds`, against a resolvable text channel,
reaches the content-or-embeds validation, but the invalid-request
`McpError` it throws is caught by the case's own catch block and
rewrapped, so the caller receives an internal-error classification --
not the invalid-request classification the claim states.  The trace
shows the platform send is indeed never called. -/
theorem sendMessage_noContent_wrappedInternal :
    (sendMessage env0 bareSendArgs).1 =
      .error ⟨.internalError, "Failed to send message: " ++ noContentErr.toStr⟩ ∧
    noContentErr.code = ErrCode.invalidRequest ∧
    (sendMessage env0 bareSendArgs).2 =
      [.fetchChannel "C", .buildPayload (buildMessageOptions bareSendArgs)] :=
  ⟨rfl, rfl, rfl⟩

/-! ### C2 -/

/-- C2: evaluation at the failing inputs.  A `send_message` invocation
whose `channelId` resolves to nothing, and one whose channel is not
text-capable, both throw the invalid-request `McpError` of index.ts 394,
but the case's catch block rewraps it, so the caller receives the
internal-error classification -- not the invalid-request classification
the claim states. -/
theorem sendMessage_badChannel_wrappedInternal :
    (sendMessage env0 badChanArgs).1 =
      .error ⟨.internalError, "Failed to send message: " ++ invalidChannelErr.toStr⟩ ∧
    (sendMessage env0 voiceChanArgs).1 =
      .error ⟨.internalError, "Failed to send message: " ++ invalidChannelErr.toStr⟩ ∧
    invalidChannelErr.code = ErrCode.invalidRequest :=
  ⟨rfl, rfl, rfl⟩

/-! ### C8 -/

/-- C8 counterexample: an invocation lacking both `content` and `embeds`
against a resolvable text channel nevertheless constructs the send
payload -- a `buildPayload` step appears in its trace -- because the
content-or-embeds validation (index.ts 466-469) runs only after the
payload construction (397-464), contradicting the claimed order. -/
theorem sendMessage_payloadBuiltDespiteNoContent :
    bareSendArgs.content = none ∧ bareSendArgs.embeds = none ∧
    (sendMessage env0 bareSendArgs).2.any Step.isBuildPayload = true :=
  ⟨rfl, rfl, rfl⟩

/-- C8 amended: the content-or-embeds check runs after the send payload
is constructed but before dispatch.  For every invocation lacking both
`content` and `embeds` whose channel resolves as text-capable, the trace
is exactly the channel fetch followed by the payload construction --
the payload is built, and the platform send is never called -- and the
run fails with the (catch-wrapped) missing-content error. -/
theorem sendMessage_validationAfterConstruction (env : Env) (a : SendArgs) (ch : Channel)
    (hch : env.channels a.channelId = some ch) (htext : ch.isTextBased = true)
    (hc : strTruthy a.content = false)
    (he : a.embeds.isNone ∨ (a.embeds.getD []).length = 0) :
    (sendMessage env a).2 =
      [.fetchChannel a.channelId, .buildPayload (buildMessageOptions a)] ∧
    (sendMessage env a).1 =
      .error ⟨.internalError, "Failed to send message: " ++ noContentErr.toStr⟩ := by
  have hcond : a.embeds = none ∨ a.embeds.getD [] = [] := by
    rcases he with h | h
    · exact Or.inl (Option.isNone_iff_eq_none.mp h)
    · exact Or.inr (List.length_eq_zero.mp h)
  unfold sendMessage sendMessageTry
  simp [hch, htext, hc, wrapCatch, TryErr.toStr, hcond]

/-- Witness for C8 amended at the bare invocation. -/
theorem sendMessage_validationAfterConstruction_witness :
    (sendMessage env0 bareSendArgs).2 =
      [.fetchChannel "C", .buildPayload (buildMessageOptions bareSendArgs)] ∧
    (sendMessage env0 bareSendArgs).1 =
      .error ⟨.internalError, "Failed to send message: " ++ noContentErr.toStr⟩ :=
  sendMessage_validationAfterConstruction env0 bareSendArgs chanC rfl rfl rfl (Or.inl rfl)

/-! ### C4 -/

/-- The title step only sets the title field. -/
theorem setTitle_eq (d : EmbedInput) (e : Embed) :
    setTitle d e = { e with title := if strTruthy d.title then d.title else e.title } := by
  unfold setTitle
  split_ifs <;> rfl

/-- The description step only sets the description field. -/
theorem setDescr_eq (d : EmbedInput) (e : Embed) :
    setDescr d e = { e with descr := if strTruthy d.descr then d.descr else e.descr } := by
  unfold setDescr
  split_ifs <;> rfl

/-- The url step only sets the url field. -/
theorem setUrl_eq (d : EmbedInput) (e : Embed) :
    setUrl d e = { e with url := if strTruthy d.url then d.url else e.url } := by
  unfold setUrl
  split_ifs <;> rfl

/-- The color step only sets the color field. -/
theorem setColor_eq (d : EmbedInput) (e : Embed) :
    setColor d e = { e with color := if intTruthy d.color then d.color else e.color } := by
  unfold setColor
  split_ifs <;> rfl

/-- The timestamp step only sets the timestamp field. -/
theorem setTimestamp_eq (d : EmbedInput) (e : Embed) :
    setTimestamp d e =
      { e with timestamp := if strTruthy d.timestamp then d.timestamp else e.timestamp } := by
  unfold setTimestamp
  split_ifs <;> rfl

/-- The author step only sets the author field. -/
theorem setAuthor_eq (d : EmbedInput) (e : Embed) :
    setAuthor d e =
      { e with author :=
          ((d.author.map
              (fun a => some (⟨a.name.getD "", a.url, a.iconURL⟩ : AuthorOut))).getD e.author) } := by
  unfold setAuthor
  cases d.author <;> rfl

/-- The thumbnail step only sets the thumbnail field. -/
theorem setThumbnail_eq (d : EmbedInput) (e : Embed) :
    setThumbnail d e =
      { e with thumbnail := (d.thumbnail.map some).getD e.thumbnail } := by
  unfold setThumbnail
  cases d.thumbnail <;> rfl

/-- The image step only sets the image field. -/
theorem setImage_eq (d : EmbedInput) (e : Embed) :
    setImage d e = { e with image := (d.image.map some).getD e.image } := by
  unfold setImage
  cases d.image <;> rfl

/-- The footer step only sets the footer field. -/
theorem setFooter_eq (d : EmbedInput) (e : Embed) :
    setFooter d e =
      { e with footer :=
          ((d.footer.map
              (fun f => some (⟨f.text.getD "", f.iconURL⟩ : FooterOut))).getD e.footer) } := by
  unfold setFooter
  cases d.footer <;> rfl

/-- The fields step only sets the fields field. -/
theorem setFields_eq (d : EmbedInput) (e : Embed) :
    setFields d e = { e with fields := (d.fields.map some).getD e.fields } := by
  unfold setFields
  cases d.fields <;> rfl

/-- Field-level view of the embed setter sequence: each conditional
setter touches a distinct field, so the built embed is determined
field by field. -/
theorem buildEmbed_eq (e : EmbedInput) :
    buildEmbed e =
      { title := if strTruthy e.title then e.title else none
        descr := if strTruthy e.descr then e.descr else none
        url := if strTruthy e.url then e.url else none
        color := if intTruthy e.color then e.color else none
        timestamp := if strTruthy e.timestamp then e.timestamp else none
        author := e.author.map (fun a => ⟨a.name.getD "", a.url, a.iconURL⟩)
        thumbnail := e.thumbnail
        image := e.image
        footer := e.footer.map (fun f => ⟨f.text.getD "", f.iconURL⟩)
        fields := e.fields } := by
  obtain ⟨t, d, u, c, fs, au, th, im, fo, ts⟩ := e
  unfold buildEmbed
  rw [setTitle_eq, setDescr_eq, setUrl_eq, setColor_eq, setTimestamp_eq,
    setAuthor_eq, setThumbnail_eq, setImage_eq, setFooter_eq, setFields_eq]
  cases au <;> cases th <;> cases im <;> cases fo <;> cases fs <;> rfl

/-- C4 counterexample: a supplied color of `0` is dropped from the
constructed embed (the `if (embedData.color)` guard is a JS truthiness
test), and an author or footer object supplied without a name or text
yields an empty-string placeholder (`name: ... || ""`,
`text: ... || ""`) rather than an omitted field -- all three
contradicting the claim at this input. -/
theorem buildEmbed_colorZero_placeholders :
    cexEmbedInput.color = some 0 ∧ (buildEmbed cexEmbedInput).color = none ∧
    cexEmbedInput.author = some ⟨none, some "https://a.example", none⟩ ∧
    (buildEmbed cexEmbedInput).author = some ⟨"", some "https://a.example", none⟩ ∧
    cexEmbedInput.footer = some ⟨none, none⟩ ∧
    (buildEmbed cexEmbedInput).footer = some ⟨"", none⟩ :=
  ⟨rfl, rfl, rfl, rfl, rfl, rfl⟩

/-- C4 amended: every truthy supplied embed field appears unchanged in
the constructed embed and every absent (or falsy) optional scalar field
is omitted, except that: a color of `0`, being falsy, is dropped; and a
supplied author (or footer) object whose `name` (or `text`) is absent
produces an empty-string placeholder for it, the remaining nested
fields passing through unchanged. -/
theorem buildEmbed_fieldLevel (e : EmbedInput) :
    (strTruthy e.title = true → (buildEmbed e).title = e.title) ∧
    (strTruthy e.title = false → (buildEmbed e).title = none) ∧
    (strTruthy e.descr = true → (buildEmbed e).descr = e.descr) ∧
    (strTruthy e.descr = false → (buildEmbed e).descr = none) ∧
    (strTruthy e.url = true → (buildEmbed e).url = e.url) ∧
    (strTruthy e.url = false → (buildEmbed e).url = none) ∧
    (intTruthy e.color = true → (buildEmbed e).color = e.color) ∧
    (intTruthy e.color = false → (buildEmbed e).color = none) ∧
    (strTruthy e.timestamp = true → (buildEmbed e).timestamp = e.timestamp) ∧
    (strTruthy e.timestamp = false → (buildEmbed e).timestamp = none) ∧
    (buildEmbed e).author = e.author.map (fun a => ⟨a.name.getD "", a.url, a.iconURL⟩) ∧
    (buildEmbed e).thumbnail = e.thumbnail ∧
    (buildEmbed e).image = e.image ∧
    (buildEmbed e).footer = e.footer.map (fun f => ⟨f.text.getD "", f.iconURL⟩) ∧
    (buildEmbed e).fields = e.fields := by
  rw [buildEmbed_eq]
  refine ⟨?_, ?_, ?_, ?_, ?_, ?_, ?_, ?_, ?_, ?_, rfl, rfl, rfl, rfl, rfl⟩ <;>
    intro h <;> simp [h]

/-- Witness for C4 amended at a fully-supplied embed input. -/
theorem buildEmbed_fieldLevel_witness :
    (buildEmbed fullEmbedInput).title = some "t" ∧
    (buildEmbed fullEmbedInput).color = some 5 ∧
    (buildEmbed fullEmbedInput).author = some ⟨"au", none, none⟩ ∧
    (buildEmbed fullEmbedInput).footer = some ⟨"ft", none⟩ ∧
    (buildEmbed fullEmbedInput).fields = some [⟨"n", "v", some true⟩] := by
  obtain ⟨h1, _, _, _, _, _, h7, _, _, _, h11, _, _, h14, h15⟩ :=
    buildEmbed_fieldLevel fullEmbedInput
  exact ⟨h1 (by decide), h7 (by decide), by rw [h11]; rfl, by rw [h14]; rfl, h15⟩

/-! ### Stable-sort lemmas -/

/-- Inserting an element permutes consing it. -/
theorem insertLe_perm (le : α → α → Bool) (a : α) (l : List α) :
    (insertLe le a l).Perm (a :: l) := by
  induction l with
  | nil => exact List.Perm.refl _
  | cons b t ih =>
      simp only [insertLe]
      split
      · exact List.Perm.refl _
      · exact (ih.cons b).trans (List.Perm.swap a b t)

/-- Membership in an insertion. -/
theorem mem_insertLe {le : α → α → Bool} {a x : α} {l : List α} :
    x ∈ insertLe le a l ↔ x = a ∨ x ∈ l := by
  simpa using (insertLe_perm le a l).mem_iff

/-- The stable sort permutes its input. -/
theorem stableSort_perm (le : α → α → Bool) (l : List α) :
    (stableSort le l).Perm l := by
  induction l with
  | nil => exact List.Perm.refl _
  | cons a t ih =>
      simpa [stableSort] using (insertLe_perm le a (stableSort le t)).trans (ih.cons a)

/-- Insertion into a sorted list stays sorted, given a transitive total
comparison. -/
theorem pairwise_insertLe (le : α → α → Bool)
    (trns : ∀ a b c, le a b = true → le b c = true → le a c = true)
    (total : ∀ a b, le a b = true ∨ le b a = true)
    (a : α) (l : List α) (h : l.Pairwise (fun x y => le x y = true)) :
    (insertLe le a l).Pairwise (fun x y => le x y = true) := by
  induction l with
  | nil => simp [insertLe]
  | cons b t ih =>
      rcases List.pairwise_cons.mp h with ⟨hb, ht⟩
      by_cases hab : le a b = true
      · simp only [insertLe, if_pos hab]
        refine List.pairwise_cons.mpr ⟨?_, h⟩
        intro y hy
        rcases List.mem_cons.mp hy with rfl | hyt
        · exact hab
        · exact trns a b y hab (hb y hyt)
      · have hba : le b a = true := (total a b).resolve_left hab
        simp only [insertLe, if_neg hab]
        refine List.pairwise_cons.mpr ⟨?_, ih ht⟩
        intro y hy
        rcases mem_insertLe.mp hy with rfl | hyt
        · exact hba
        · exact hb y hyt

/-- The stable sort sorts, given a transitive total comparison. -/
theorem pairwise_stableSort (le : α → α → Bool)
    (trns : ∀ a b c, le a b = true → le b c = true → le a c = true)
    (total : ∀ a b, le a b = true ∨ le b a = true) (l : List α) :
    (stableSort le l).Pairwise (fun x y => le x y = true) := by
  induction l with
  | nil => simp [stableSort]
  | cons a t ih => exact pairwise_insertLe le trns total a _ ih

/-! ### C6 -/

/-- C6 counterexample: under the position sort the missing position is
replaced by the finite literal `999`, not an infinite tie value, so the
positionless channel sorts before a channel whose declared position is
`1000` -- contradicting the claim that every positioned channel precedes
every positionless one. -/
theorem positionSort_999_not_infinite :
    chPos1000.hasPositionProp = true ∧ chNoPos.hasPositionProp = false ∧
    sortChannels .position [chPos1000, chNoPos] = [chNoPos, chPos1000] := by
  refine ⟨rfl, rfl, ?_⟩
  decide

/-- C6 amended: with `sortBy` absent (defaulting to `position`) or
`"position"`, the output is a permutation of the filtered channels
ordered by ascending effective position, where a channel lacking the
position property gets the effective position `999`; so positionless
channels sort after channels with positions below `999` but before any
channel with a position above `999`. -/
theorem positionSort_sortedByEffPos (a : ListArgs) (l : List GuildChannel)
    (hdef : a.sortBy = none ∨ a.sortBy = some .position) :
    (sortChannels (a.sortBy.getD .position) l).Perm l ∧
    (sortChannels (a.sortBy.getD .position) l).Pairwise
      (fun x y => effPos x ≤ effPos y) := by
  have hs : a.sortBy.getD .position = SortBy.position := by
    rcases hdef with h | h <;> simp [h]
  rw [hs]
  refine ⟨stableSort_perm posLe l, ?_⟩
  have hp := pairwise_stableSort posLe
    (fun x y z hxy hyz => by
      simp only [posLe, decide_eq_true_eq] at *
      exact le_trans hxy hyz)
    (fun x y => by
      simp only [posLe, decide_eq_true_eq]
      exact le_total _ _) l
  exact hp.imp (fun hxy => by simpa [posLe, decide_eq_true_eq] using hxy)

/-- Witness for C6 amended at a two-channel list with `sortBy` absent. -/
theorem positionSort_sortedByEffPos_witness :
    (sortChannels (bareListArgs.sortBy.getD .position)
        [chPos1000, chNoPos]).Perm [chPos1000, chNoPos] ∧
    (sortChannels (bareListArgs.sortBy.getD .position)
        [chPos1000, chNoPos]).Pairwise (fun x y => effPos x ≤ effPos y) :=
  positionSort_sortedByEffPos bareListArgs [chPos1000, chNoPos] (Or.inl rfl)

/-! ### C9 -/

/-- C9 counterexample: with a `categoryId` supplied, a channel whose
`parentId` property is present but null is dropped by the category
filter -- `'parentId' in channel` is true and `null !== categoryId` --
contradicting the claim that a channel declaring no parent is never
dropped. -/
theorem catFilter_dropsNullParent :
    chNullParent.parentId = none ∧ catPasses (some "cat") chNullParent = false := by
  refine ⟨rfl, ?_⟩
  decide

/-- C9 amended: the category filter drops a channel exactly when
`categoryId` is supplied (truthy), the channel carries the `parentId`
property, and that property's value -- null for a parentless channel --
differs from `categoryId`; with no `categoryId` nothing is dropped. -/
theorem catFilter_characterization (cid : String) (c : GuildChannel) (h : cid ≠ "") :
    (catPasses (some cid) c = false ↔
      c.hasParentIdProp = true ∧ c.parentId ≠ some cid) ∧
    catPasses none c = true := by
  constructor
  · simp [catPasses, strTruthy, h, bne_iff_ne]
  · simp [catPasses, strTruthy]

/-- Witness for C9 amended at the null-parent channel. -/
theorem catFilter_characterization_witness :
    ((catPasses (some "cat") chNullParent = false ↔
      chNullParent.hasParentIdProp = true ∧ chNullParent.parentId ≠ some "cat") ∧
    catPasses none chNullParent = true) :=
  catFilter_characterization "cat" chNullParent (by decide)

/-! ### C5 -/

/-- The early-return chain of the filter callback equals the conjunction
of its four blocks. -/
theorem keepChannel_eq_and (a : ListArgs) (c : GuildChannel) :
    keepChannel a c =
      (typePasses a.channelTypes c && catPasses a.categoryId c &&
        archPasses (a.includeArchived.getD false) c &&
        privPasses (a.includePrivate.getD false) c) := by
  unfold keepChannel
  cases h1 : typePasses a.channelTypes c <;>
    cases h2 : catPasses a.categoryId c <;>
    cases h3 : archPasses (a.includeArchived.getD false) c <;>
    cases h4 : privPasses (a.includePrivate.getD false) c <;> simp

/-- Sequential filtering equals one filter by the conjunction of all
predicates. -/
theorem applyFilters_eq_filter_all (ps : List (α → Bool)) (l : List α) :
    applyFilters ps l = l.filter (fun x => ps.all (fun p => p x)) := by
  induction ps generalizing l with
  | nil => simp [applyFilters]
  | cons p ps ih =>
      simp only [applyFilters, List.foldl_cons] at ih ⊢
      rw [ih, List.filter_filter]
      apply List.filter_congr
      intro x _
      simp [Bool.and_comm]

/-- A conjunction over a multiset of predicates does not depend on
their order. -/
theorem all_of_perm {f : α → Bool} {ps qs : List α} (h : ps.Perm qs) :
    ps.all f = qs.all f := by
  induction h with
  | nil => rfl
  | cons a _ ih => simp [ih]
  | swap a b l => simp [Bool.and_left_comm]
  | trans _ _ ih1 ih2 => rw [ih1, ih2]

/-- C5: a channel appears in the filtered collection iff it is in the
guild's cached collection and independently passes each of the four
filter blocks (type with the generic thread special case, category,
archived-thread, private-thread); and applying the four filters in any
order yields exactly the filtered collection, so the outcome is
order-independent. -/
theorem listFilter_iff_and_orderFree (a : ListArgs) (l : List GuildChannel)
    (c : GuildChannel) (ps : List (GuildChannel → Bool))
    (hps : ps.Perm (listFilters a)) :
    (c ∈ filterChannels a l ↔
      c ∈ l ∧ typePasses a.channelTypes c = true ∧ catPasses a.categoryId c = true ∧
        archPasses (a.includeArchived.getD false) c = true ∧
        privPasses (a.includePrivate.getD false) c = true) ∧
    applyFilters ps l = filterChannels a l := by
  constructor
  · simp [filterChannels, List.mem_filter, keepChannel_eq_and, Bool.and_eq_true,
      and_assoc]
  · rw [applyFilters_eq_filter_all]
    unfold filterChannels
    apply List.filter_congr
    intro x _
    rw [all_of_perm hps]
    simp [listFilters, keepChannel_eq_and, Bool.and_assoc]

/-- Witness for C5: the four filters of the voice-and-thread invocation
applied with the first two interchanged give the filtered collection,
and the membership characterization holds at a concrete channel. -/
theorem listFilter_iff_and_orderFree_witness :
    (chPos1000 ∈ filterChannels voiceThreadArgs [chPos1000, chNoPos, chNullParent] ↔
      chPos1000 ∈ [chPos1000, chNoPos, chNullParent] ∧
        typePasses voiceThreadArgs.channelTypes chPos1000 = true ∧
        catPasses voiceThreadArgs.categoryId chPos1000 = true ∧
        archPasses (voiceThreadArgs.includeArchived.getD false) chPos1000 = true ∧
        privPasses (voiceThreadArgs.includePrivate.getD false) chPos1000 = true) ∧
    applyFilters
      [catPasses voiceThreadArgs.categoryId, typePasses voiceThreadArgs.channelTypes,
        archPasses (voiceThreadArgs.includeArchived.getD false),
        privPasses (voiceThreadArgs.includePrivate.getD false)]
      [chPos1000, chNoPos, chNullParent] =
      filterChannels voiceThreadArgs [chPos1000, chNoPos, chNullParent] :=
  listFilter_iff_and_orderFree voiceThreadArgs [chPos1000, chNoPos, chNullParent]
    chPos1000 _ (List.Perm.swap _ _ _)

/-! ### C3 -/

/-- C3: a `read_messages` invocation against a resolvable text channel,
when the platform returns at most `limit` messages in strictly
newest-first order, succeeds with: at most `limit` projections; at most
as many projections as fetched messages whose author id equals
`authorId` when that filter is supplied; strictly descending timestamps
by default; and strictly ascending timestamps when `sortOrder` is
`"asc"`. -/
theorem readMessages_limit_author_order (env : Env) (a : ReadArgs) (ch : Channel)
    (hch : env.channels a.channelId = some ch) (htext : ch.isTextBased = true)
    (hlen : (env.fetchMessages a.channelId (buildFetchOptions a)).length ≤ a.limit.getD 10)
    (hsort : (env.fetchMessages a.channelId (buildFetchOptions a)).Pairwise
      (fun m1 m2 => m1.createdTimestamp > m2.createdTimestamp)) :
    isOkRes (readMessages env a).1 = true ∧
    (resultList (readMessages env a).1).length ≤ a.limit.getD 10 ∧
    (strTruthy a.authorId = true →
      (resultList (readMessages env a).1).length ≤
        ((env.fetchMessages a.channelId (buildFetchOptions a)).filter
          (fun m => m.author.id == a.authorId.getD "")).length) ∧
    (a.sortOrder.getD .desc = .desc →
      (resultList (readMessages env a).1).Pairwise (fun x y => x.timestamp > y.timestamp)) ∧
    (a.sortOrder.getD .desc = .asc →
      (resultList (readMessages env a).1).Pairwise (fun x y => x.timestamp < y.timestamp)) := by
  have key : (readMessages env a).1 = .ok
      ((if a.sortOrder.getD .desc = .asc
        then (if strTruthy a.authorId
              then (env.fetchMessages a.channelId (buildFetchOptions a)).filter
                (fun m => m.author.id == a.authorId.getD "")
              else env.fetchMessages a.channelId (buildFetchOptions a)).reverse
        else (if strTruthy a.authorId
              then (env.fetchMessages a.channelId (buildFetchOptions a)).filter
                (fun m => m.author.id == a.authorId.getD "")
              else env.fetchMessages a.channelId (buildFetchOptions a))).map
        (projectMessage (a.includeContent.getD true) (a.includeEmbeds.getD false)
          (a.includeReactions.getD false))) := by
    unfold readMessages readMessagesTry wrapCatch
    simp [hch, htext]
  rw [key]
  refine ⟨rfl, ?_, ?_, ?_, ?_⟩
  · simp only [resultList, List.length_map]
    split_ifs <;>
      first
        | exact hlen
        | exact le_trans (List.length_filter_le _ _) hlen
        | (rw [List.length_reverse]; exact hlen)
        | (rw [List.length_reverse];
            exact le_trans (List.length_filter_le _ _) hlen)
  · intro hauth
    simp only [resultList, List.length_map, if_pos hauth]
    split_ifs
    · rw [List.length_reverse]
    · exact le_refl _
  · intro hd
    have hnotasc : ¬(a.sortOrder.getD .desc = .asc) := by
      rw [hd]
      decide
    simp only [resultList, if_neg hnotasc]
    rw [List.pairwise_map]
    split_ifs with hauth
    · exact List.Pairwise.sublist (List.filter_sublist _) hsort
    · exact hsort
  · intro ha
    simp only [resultList, if_pos ha]
    rw [List.pairwise_map, List.pairwise_reverse]
    split_ifs with hauth
    · exact List.Pairwise.sublist (List.filter_sublist _) hsort
    · exact hsort

/-- Witness for C3 at the two-message channel with the author filter. -/
theorem readMessages_limit_author_order_witness :
    isOkRes (readMessages env3 readArgsU).1 = true ∧
    (resultList (readMessages env3 readArgsU).1).length ≤ readArgsU.limit.getD 10 ∧
    (strTruthy readArgsU.authorId = true →
      (resultList (readMessages env3 readArgsU).1).length ≤
        ((env3.fetchMessages readArgsU.channelId (buildFetchOptions readArgsU)).filter
          (fun m => m.author.id == readArgsU.authorId.getD "")).length) ∧
    (readArgsU.sortOrder.getD .desc = .desc →
      (resultList (readMessages env3 readArgsU).1).Pairwise
        (fun x y => x.timestamp > y.timestamp)) ∧
    (readArgsU.sortOrder.getD .desc = .asc →
      (resultList (readMessages env3 readArgsU).1).Pairwise
        (fun x y => x.timestamp < y.timestamp)) :=
  readMessages_limit_author_order env3 readArgsU chanC rfl rfl (by decide) (by decide)

end DiscordMCP
